import Mathlib

/-!
Verification development for the PlexScripts repository.

The repository's decision logic lives in three Python scripts; the two that the
claims concern are `plex_tv_shows.py` and `PlexMediaExport.py` (their shared
functions `get_tvmaze_show_info`, `count_complete_seasons`, the worksheet
builders, and `main`'s show-processing loop).  Below, Python dictionaries
keyed by season number are embedded as association lists `List (Nat × Nat)`
with first-match lookup and default `0`, mirroring `d.get(k, {}).get(f, 0)`.
Excel `PatternFill` styles become the inductive type `Fill`; a cell that is
never filled is `Fill.none`.
-/

/-- The dictionary returned by `get_tvmaze_show_info`:
`{'total_seasons': ..., 'seasons': {season_num: {'total_episodes': n}}}`. -/
structure TVMazeInfo where
  total_seasons : Nat
  seasons : List (Nat × Nat)
  deriving DecidableEq

/-- One entry of `shows_data` as assembled in `main`:
`{'title': ..., 'seasons': plex_seasons, 'tvmaze_info': tvmaze_info}`.
`seasons` maps a season number to `episodes_in_plex`. -/
structure ShowData where
  title : String
  seasons : List (Nat × Nat)
  tvmaze_info : TVMazeInfo
  deriving DecidableEq

/-- A show as enumerated from the Plex library: its title and the per-season
`episodes_in_plex` counts that `get_plex_show_info` would collect. -/
structure PlexShow where
  title : String
  seasons : List (Nat × Nat)
  deriving DecidableEq

/-- `m.get(k, {}).get(field, 0)` on the season dictionaries: the value stored
for key `k`, or `0` when `k` is absent. -/
def getCount (m : List (Nat × Nat)) (k : Nat) : Nat :=
  match m.find? (fun p => p.1 == k) with
  | some p => p.2
  | Option.none => 0

/-- The per-season test inside `count_complete_seasons`:
`plex_episodes == total_episodes and total_episodes > 0`. -/
def seasonIsComplete (plexm tvzm : List (Nat × Nat)) (s : Nat) : Bool :=
  getCount plexm s == getCount tvzm s && decide (0 < getCount tvzm s)

/-- `count_complete_seasons(show_data)` (identical in `plex_tv_shows.py` and
`PlexMediaExport.py`): iterate `season_num` over
`range(1, total_seasons + 1)` and count the seasons whose Plex episode count
equals the TVMaze episode count, with the TVMaze count positive. -/
def count_complete_seasons (sd : ShowData) : Nat :=
  ((List.range sd.tvmaze_info.total_seasons).map (fun i => i + 1)).countP
    (fun s => seasonIsComplete sd.seasons sd.tvmaze_info.seasons s)

/-- The Excel fill applied to a cell.  `Fill.none` is a cell left with the
default (no) fill; `gray`, `green`, `red` are `GRAY_FILL`, `GREEN_FILL`,
`RED_FILL`; `lowRes` and `fourK` are `LOW_RES_FILL` and `FOURK_FILL` of
`PlexMediaExport.py`. -/
inductive Fill where
  | none
  | gray
  | green
  | red
  | lowRes
  | fourK
  deriving DecidableEq

/-- The value written to the "Complete Series" cell:
`f"{complete_seasons}/{total_seasons}"`. -/
def series_cell_value (sd : ShowData) : String :=
  toString (count_complete_seasons sd) ++ "/" ++ toString sd.tvmaze_info.total_seasons

/-- The fill applied to the "Complete Series" cell:
green when `complete_seasons == total_seasons`, red when
`complete_seasons > 0`, otherwise none. -/
def series_cell_fill (sd : ShowData) : Fill :=
  if count_complete_seasons sd = sd.tvmaze_info.total_seasons then Fill.green
  else if 0 < count_complete_seasons sd then Fill.red
  else Fill.none

/-- The fill applied to the `Season {season_num}` cell of one show's row
(`create_excel_report` / `create_tv_shows_worksheet`): gray when the season
number exceeds the show's `total_seasons`; otherwise, when TVMaze knows
episodes for it, green on an exact match, red when some but not all episodes
are held, and no fill when the season is entirely missing locally or TVMaze
records no episodes for it. -/
def season_cell_fill (total_seasons : Nat) (plexm tvzm : List (Nat × Nat))
    (season_num : Nat) : Fill :=
  if season_num ≤ total_seasons then
    if 0 < getCount tvzm season_num then
      if getCount plexm season_num = getCount tvzm season_num then Fill.green
      else if 0 < getCount plexm season_num then Fill.red
      else Fill.none
    else Fill.none
  else Fill.gray

/-- The value written to the `Season {season_num}` cell:
`f"{plex_episodes}/{total_episodes}"` when the season is within range and
TVMaze records episodes for it, otherwise the cell keeps no value. -/
def season_cell_value (total_seasons : Nat) (plexm tvzm : List (Nat × Nat))
    (season_num : Nat) : Option String :=
  if season_num ≤ total_seasons ∧ 0 < getCount tvzm season_num then
    some (toString (getCount plexm season_num) ++ "/" ++ toString (getCount tvzm season_num))
  else Option.none

/-- Rank of a season fill on the MISSING → PARTIAL → COMPLETE axis used by the
monotonicity claim: none 0, red 1, green 2. -/
def fillRank : Fill → Nat
  | Fill.green => 2
  | Fill.red => 1
  | _ => 0

/-- One iteration of `main`'s show loop: call `get_tvmaze_show_info` with the
show's title; when it returns `None`, `continue` (the accumulator is
unchanged); otherwise update `max_seasons` when `total_seasons` exceeds it and
append the show's record to `shows_data`. -/
def processStep (lookup : String → Option TVMazeInfo)
    (acc : List ShowData × Nat) (sh : PlexShow) : List ShowData × Nat :=
  match lookup sh.title with
  | Option.none => acc
  | some info =>
      let max2 := if info.total_seasons > acc.2 then info.total_seasons else acc.2
      (acc.1 ++ [⟨sh.title, sh.seasons, info⟩], max2)

/-- `main`'s show-processing loop: starting from `shows_data = []` and
`max_seasons = 0`, fold `processStep` over the library's shows.  Returns the
final `(shows_data, max_seasons)` handed to the report builder. -/
def processShows (lookup : String → Option TVMazeInfo) (shows : List PlexShow) :
    List ShowData × Nat :=
  shows.foldl (processStep lookup) ([], 0)

/-- The sequence of identifiers passed to `get_tvmaze_show_info` during
`main`'s loop: one call per show, with the show's title, before any branch. -/
def fetchTrace (shows : List PlexShow) : List String :=
  shows.map (fun sh => sh.title)

/-- The header row of the TV Shows worksheet:
`["Show Title", "Complete Series", "Season 1", ..., "Season max_seasons"]`. -/
def headers (max_seasons : Nat) : List String :=
  ["Show Title", "Complete Series"] ++
    (List.range max_seasons).map (fun i => "Season " ++ toString (i + 1))

/-- The fills of one show's season cells, columns `Season 1 .. Season
max_seasons`: every row receives a cell for every season column. -/
def seasonCells (sd : ShowData) (max_seasons : Nat) : List Fill :=
  ((List.range max_seasons).map (fun i => i + 1)).map
    (fun s => season_cell_fill sd.tvmaze_info.total_seasons sd.seasons sd.tvmaze_info.seasons s)

/-- Result of `get_tvmaze_show_info`: `notFound` is the Python `return None`;
`found` carries the returned dictionary; `valueError` is the uncaught
`ValueError` that `max()` raises when applied to an empty sequence. -/
inductive LookupResult where
  | notFound
  | valueError
  | found (info : TVMazeInfo)
  deriving DecidableEq

/-- The episode-aggregation loop of `get_tvmaze_show_info`: bump the
`total_episodes` counter of an episode's season, creating the season entry on
first sight (insertion order preserved, as in a Python dict). -/
def bumpSeason (seasons : List (Nat × Nat)) (s : Nat) : List (Nat × Nat) :=
  match seasons with
  | [] => [(s, 1)]
  | (k, v) :: rest => if k = s then (k, v + 1) :: rest else (k, v) :: bumpSeason rest s

/-- `seasons` as built by `get_tvmaze_show_info` from the episode list
(each episode contributing its `episode['season']` number). -/
def buildSeasons (episodeSeasons : List Nat) : List (Nat × Nat) :=
  episodeSeasons.foldl bumpSeason []

/-- Python's `max(keys)`: `none` models the `ValueError` raised on an empty
sequence. -/
def maxKeys : List Nat → Option Nat
  | [] => Option.none
  | k :: ks => some (ks.foldl Nat.max k)

/-- `get_tvmaze_show_info(show_name)` (identical in both scripts), with the
two HTTP interactions abstracted: `search_ok` says whether the title search
returned status 200 with a non-empty result list, and `episodes_resp` is
`some` of the episode season numbers when the episodes request returned 200,
`none` otherwise.  On success the function builds the per-season episode
counts and returns `{'total_seasons': max(seasons.keys()), 'seasons': ...}`;
`max` over an empty `seasons` raises `ValueError`. -/
def get_tvmaze_show_info (search_ok : Bool) (episodes_resp : Option (List Nat)) :
    LookupResult :=
  if search_ok then
    match episodes_resp with
    | some episodeSeasons =>
        let seasons := buildSeasons episodeSeasons
        match maxKeys (seasons.map Prod.fst) with
        | some total => LookupResult.found ⟨total, seasons⟩
        | Option.none => LookupResult.valueError
    | Option.none => LookupResult.notFound
  else LookupResult.notFound

/-- Python's `str.lower()` as the scripts use it: per-character ASCII
lowercasing of the resolution string. -/
def strLower (s : String) : String := String.mk (s.data.map Char.toLower)

/-- The row fill chosen by `create_movies_worksheet` from
`str(df.iloc[row]['Video Resolution']).lower()`: `LOW_RES_FILL` for
`['sd', '480', '720']`, `FOURK_FILL` for `['4k', 'uhd']`, otherwise no fill. -/
def row_fill (resolution : String) : Fill :=
  let r := strLower resolution
  if r = "sd" ∨ r = "480" ∨ r = "720" then Fill.lowRes
  else if r = "4k" ∨ r = "uhd" then Fill.fourK
  else Fill.none

/-- One row of the Movies worksheet: the row fill is computed once from the
resolution and then applied to every cell written in the column loop (a cell
keeps `Fill.none` when `row_fill` is falsy). -/
def movieRow (values : List String) (resolution : String) : List (String × Fill) :=
  values.map (fun v => (v, row_fill resolution))

/-! ### Helper lemmas -/

theorem getCount_singleton (k v : Nat) : getCount [(k, v)] k = v := by
  simp [getCount]

theorem ccs_singleton (loc exp : Nat) :
    count_complete_seasons ⟨"", [(1, loc)], ⟨1, [(1, exp)]⟩⟩ =
      if loc = exp ∧ 0 < exp then 1 else 0 := by
  show (([1] : List Nat)).countP (fun s => seasonIsComplete [(1, loc)] [(1, exp)] s)
      = if loc = exp ∧ 0 < exp then 1 else 0
  rw [List.countP_cons, List.countP_nil]
  by_cases h1 : loc = exp <;> by_cases h2 : 0 < exp <;>
    simp [seasonIsComplete, getCount, h1, h2]

theorem scf_singleton (loc exp : Nat) :
    season_cell_fill 1 [(1, loc)] [(1, exp)] 1 =
      if 0 < exp then
        if loc = exp then Fill.green
        else if 0 < loc then Fill.red else Fill.none
      else Fill.none := by
  simp [season_cell_fill, getCount]

/-! ### Claims -/

/-- C1 counterexample: season 1 has `expected = 2 > 0` and `local = 3 ≥ 2`,
yet the code does not count it as complete (strict equality), and colors the
season cell red, not green. -/
theorem C1_counterexample :
    count_complete_seasons ⟨"", [(1, 3)], ⟨1, [(1, 2)]⟩⟩ = 0
    ∧ season_cell_fill 1 [(1, 3)] [(1, 2)] 1 = Fill.red
    ∧ season_cell_fill 1 [(1, 3)] [(1, 2)] 1 ≠ Fill.green := by decide

/-- C1 (amended): for `expected > 0`, a season is COMPLETE (counted and
highlighted green) exactly when the local count equals the expected count;
a strictly greater local count is not complete. -/
theorem C1_amended (exp loc : Nat) (h : 0 < exp) :
    (count_complete_seasons ⟨"", [(1, loc)], ⟨1, [(1, exp)]⟩⟩
        = if loc = exp then 1 else 0)
    ∧ (season_cell_fill 1 [(1, loc)] [(1, exp)] 1 = Fill.green ↔ loc = exp) := by
  constructor
  · rw [ccs_singleton]
    by_cases hle : loc = exp <;> simp [hle, h]
  · rw [scf_singleton, if_pos h]
    by_cases hle : loc = exp
    · simp [hle]
    · rw [if_neg hle]
      split_ifs <;> simp [hle]

/-- C1 witness: instantiation of `C1_amended` at `expected = 2`, `local = 2`. -/
theorem C1_amended_witness :
    0 < 2
    ∧ (count_complete_seasons ⟨"", [(1, 2)], ⟨1, [(1, 2)]⟩⟩ = if 2 = 2 then 1 else 0)
    ∧ (season_cell_fill 1 [(1, 2)] [(1, 2)] 1 = Fill.green ↔ 2 = 2) :=
  ⟨by decide, (C1_amended 2 2 (by decide)).1, (C1_amended 2 2 (by decide)).2⟩

/-- C4 counterexample: with `expected = 2`, raising the local count from 2 to
3 moves the season status backward from COMPLETE (green) to PARTIAL (red). -/
theorem C4_counterexample :
    season_cell_fill 1 [(1, 2)] [(1, 2)] 1 = Fill.green
    ∧ season_cell_fill 1 [(1, 3)] [(1, 2)] 1 = Fill.red
    ∧ fillRank (season_cell_fill 1 [(1, 3)] [(1, 2)] 1)
        < fillRank (season_cell_fill 1 [(1, 2)] [(1, 2)] 1) := by decide

/-- C4 (amended): for fixed `expected > 0` the status is monotone
MISSING → PARTIAL → COMPLETE only while the local count stays ≤ expected;
a local count strictly above expected is classified PARTIAL (red) again. -/
theorem C4_amended (exp l1 l2 l3 : Nat) (hexp : 0 < exp) (h12 : l1 ≤ l2)
    (h2exp : l2 ≤ exp) (h3 : exp < l3) :
    fillRank (season_cell_fill 1 [(1, l1)] [(1, exp)] 1)
      ≤ fillRank (season_cell_fill 1 [(1, l2)] [(1, exp)] 1)
    ∧ season_cell_fill 1 [(1, l3)] [(1, exp)] 1 = Fill.red := by
  rw [scf_singleton, scf_singleton, scf_singleton]
  constructor
  · split_ifs <;> simp_all [fillRank] <;> omega
  · rw [if_pos hexp, if_neg (by omega), if_pos (by omega)]

/-- C4 witness: instantiation of `C4_amended` at `expected = 2` with local
counts 1 ≤ 2 ≤ 2 and 3 > 2. -/
theorem C4_amended_witness :
    (0 < 2 ∧ 1 ≤ 2 ∧ 2 ≤ 2 ∧ 2 < 3)
    ∧ fillRank (season_cell_fill 1 [(1, 1)] [(1, 2)] 1)
        ≤ fillRank (season_cell_fill 1 [(1, 2)] [(1, 2)] 1)
    ∧ season_cell_fill 1 [(1, 3)] [(1, 2)] 1 = Fill.red :=
  ⟨by decide, (C4_amended 2 1 2 3 (by decide) (by decide) (by decide) (by decide)).1,
    (C4_amended 2 1 2 3 (by decide) (by decide) (by decide) (by decide)).2⟩

/-- C5: a successful search followed by a 200 episodes response whose episode
list is empty drives `get_tvmaze_show_info` into `max()` over an empty
sequence — the uncaught `ValueError` — rather than the `None`/no-data result;
any non-empty episode list takes the normal path. -/
theorem C5_empty_episode_list_raises :
    get_tvmaze_show_info true (some []) = LookupResult.valueError
    ∧ LookupResult.valueError ≠ LookupResult.notFound
    ∧ get_tvmaze_show_info true (some [1, 1, 2])
        = LookupResult.found ⟨2, [(1, 2), (2, 1)]⟩ := by decide

/-- C8 counterexample: a catalog entry with `total_seasons = 0` yields the
aggregate label "0/0" filled green (classified complete), not UNKNOWN. -/
theorem C8_counterexample :
    series_cell_fill ⟨"X", [(1, 5)], ⟨0, []⟩⟩ = Fill.green
    ∧ series_cell_value ⟨"X", [(1, 5)], ⟨0, []⟩⟩ = "0/0" := by decide

/-- C8 (amended): whenever `total_seasons = 0`, the complete-season count is
0, the aggregate cell reads "0/0" and — because `0 == 0` — it is highlighted
green (complete), regardless of any local data. -/
theorem C8_amended (t : String) (plexm tvzm : List (Nat × Nat)) :
    count_complete_seasons ⟨t, plexm, ⟨0, tvzm⟩⟩ = 0
    ∧ series_cell_value ⟨t, plexm, ⟨0, tvzm⟩⟩ = "0/0"
    ∧ series_cell_fill ⟨t, plexm, ⟨0, tvzm⟩⟩ = Fill.green := by
  have h0 : count_complete_seasons ⟨t, plexm, ⟨0, tvzm⟩⟩ = 0 := by
    simp [count_complete_seasons]
  refine ⟨h0, ?_, ?_⟩
  · unfold series_cell_value
    rw [h0]
    show toString (0 : Nat) ++ "/" ++ toString (0 : Nat) = "0/0"
    rfl
  · unfold series_cell_fill
    rw [h0]
    simp

/-- C10: the complete-season count never exceeds `total_seasons`, so the
aggregate label `"{complete}/{total}"` always has numerator ≤ denominator. -/
theorem C10_complete_count_bound (sd : ShowData) :
    count_complete_seasons sd ≤ sd.tvmaze_info.total_seasons
    ∧ series_cell_value sd
        = toString (count_complete_seasons sd) ++ "/"
            ++ toString sd.tvmaze_info.total_seasons := by
  constructor
  · calc count_complete_seasons sd
        ≤ ((List.range sd.tvmaze_info.total_seasons).map (fun i => i + 1)).length :=
          List.countP_le_length _
      _ = sd.tvmaze_info.total_seasons := by simp
  · rfl

/-- A catalog in which no title resolves (every search misses). -/
def lookupNotFound : String → Option TVMazeInfo := fun _ => Option.none

/-- A catalog that resolves every title to the same one-season entry. -/
def lookupConst : String → Option TVMazeInfo := fun _ => some ⟨1, [(1, 2)]⟩

/-- C2 counterexample: a show whose TVMaze lookup returns `None` is skipped by
`continue` — `shows_data` stays empty, so no report row carries its title. -/
theorem C2_counterexample :
    (processShows lookupNotFound [⟨"Obscure Show", [(1, 3)]⟩]).1 = []
    ∧ "Obscure Show" ∉
        ((processShows lookupNotFound [⟨"Obscure Show", [(1, 3)]⟩]).1.map ShowData.title) := by
  decide

/-- C2 (amended): when the catalog lookup for a show's title returns `None`,
`main` skips the show entirely (it contributes neither a `shows_data` row nor
a `max_seasons` update) and the run continues with the remaining shows. -/
theorem C2_amended (lookup : String → Option TVMazeInfo) (sh : PlexShow)
    (rest : List PlexShow) (h : lookup sh.title = Option.none) :
    processShows lookup (sh :: rest) = processShows lookup rest := by
  simp [processShows, List.foldl_cons, processStep, h]

/-- C2 witness: instantiation of `C2_amended` with a missing "Obscure Show"
followed by one further show. -/
theorem C2_amended_witness :
    lookupNotFound "Obscure Show" = Option.none
    ∧ processShows lookupNotFound [⟨"Obscure Show", [(1, 3)]⟩, ⟨"Other", []⟩]
        = processShows lookupNotFound [⟨"Other", []⟩] :=
  ⟨rfl, C2_amended lookupNotFound ⟨"Obscure Show", [(1, 3)]⟩ [⟨"Other", []⟩] rfl⟩

/-- C3 counterexample: two shows titled "Show A" trigger two underlying
`get_tvmaze_show_info` calls for that identifier, not at most one. -/
theorem C3_counterexample :
    (fetchTrace [⟨"Show A", []⟩, ⟨"Show A", []⟩]).count "Show A" = 2
    ∧ ¬ ((fetchTrace [⟨"Show A", []⟩, ⟨"Show A", []⟩]).count "Show A" ≤ 1) := by
  decide

/-- C3 (amended): there is no lookup cache — each show performs its own
catalog fetch, so two shows sharing a title fetch that identifier twice; both
lookups still yield identical content, the catalog being a function of the
title alone. -/
theorem C3_amended (lookup : String → Option TVMazeInfo) (s1 s2 : PlexShow)
    (h : s1.title = s2.title) :
    (fetchTrace [s1, s2]).count s1.title = 2
    ∧ lookup s1.title = lookup s2.title := by
  constructor
  · simp only [fetchTrace, List.map_cons, List.map_nil]
    rw [h]
    simp [List.count_cons]
  · rw [h]

/-- C3 witness: instantiation of `C3_amended` at two shows titled "Show A". -/
theorem C3_amended_witness :
    ("Show A" : String) = "Show A"
    ∧ (fetchTrace [⟨"Show A", []⟩, ⟨"Show A", [(1, 1)]⟩]).count "Show A" = 2
    ∧ lookupConst "Show A" = lookupConst "Show A" :=
  ⟨rfl, (C3_amended lookupConst ⟨"Show A", []⟩ ⟨"Show A", [(1, 1)]⟩ rfl).1,
    (C3_amended lookupConst ⟨"Show A", []⟩ ⟨"Show A", [(1, 1)]⟩ rfl).2⟩

theorem getCount_cons_ne (s v k : Nat) (m : List (Nat × Nat)) (h : k ≠ s) :
    getCount ((s, v) :: m) k = getCount m k := by
  have hf : ((s, v).1 == k) = false := by simpa using Ne.symm h
  simp [getCount, List.find?, hf]

/-- C7 counterexample: season 1 is within range (`total_seasons = 2`) and has
no TVMaze record (`expected = 0`); its cell is left with no fill at all — it
does not receive the gray nonexistent fill. -/
theorem C7_counterexample :
    season_cell_fill 2 [(1, 5)] [] 1 = Fill.none
    ∧ season_cell_fill 2 [(1, 5)] [] 1 ≠ Fill.gray := by decide

/-- C7 (amended): a season in `1..total_seasons` with `expected = 0` never
counts toward the complete-season count, whatever its local episode count,
and its cell is rendered with no highlight (neither complete, nor red, nor
the gray fill, which marks only columns beyond `total_seasons`). -/
theorem C7_amended (t : String) (plexm tvzm : List (Nat × Nat)) (total s v : Nat)
    (hs : s ≤ total) (h0 : getCount tvzm s = 0) :
    seasonIsComplete ((s, v) :: plexm) tvzm s = false
    ∧ season_cell_fill total ((s, v) :: plexm) tvzm s = Fill.none
    ∧ count_complete_seasons ⟨t, (s, v) :: plexm, ⟨total, tvzm⟩⟩
        = count_complete_seasons ⟨t, plexm, ⟨total, tvzm⟩⟩ := by
  refine ⟨?_, ?_, ?_⟩
  · simp [seasonIsComplete, h0]
  · simp [season_cell_fill, hs, h0]
  · show (((List.range total).map (fun i => i + 1)).countP
        (fun n => seasonIsComplete ((s, v) :: plexm) tvzm n))
      = (((List.range total).map (fun i => i + 1)).countP
        (fun n => seasonIsComplete plexm tvzm n))
    refine List.countP_congr ?_
    intro a ha
    by_cases has : a = s
    · subst has
      simp [seasonIsComplete, h0]
    · simp [seasonIsComplete, getCount_cons_ne s v a plexm has]

/-- C7 witness: instantiation of `C7_amended` at season 1 of a two-season
show, with 5 local episodes and no TVMaze record. -/
theorem C7_amended_witness :
    (1 ≤ 2 ∧ getCount ([] : List (Nat × Nat)) 1 = 0)
    ∧ seasonIsComplete [(1, 5)] [] 1 = false
    ∧ season_cell_fill 2 [(1, 5)] [] 1 = Fill.none
    ∧ count_complete_seasons ⟨"T", [(1, 5)], ⟨2, []⟩⟩
        = count_complete_seasons ⟨"T", [], ⟨2, []⟩⟩ :=
  ⟨⟨by decide, by decide⟩,
    (C7_amended "T" [] [] 2 1 5 (by decide) (by decide)).1,
    (C7_amended "T" [] [] 2 1 5 (by decide) (by decide)).2.1,
    (C7_amended "T" [] [] 2 1 5 (by decide) (by decide)).2.2⟩

/-- C9: the movies-sheet row fill is decided once per row from the
lowercased resolution — a low tier fills every cell of the row with the
low-resolution fill, a 4K tier with the 4K fill, and any other tier leaves
every cell unfilled. -/
theorem C9_flat_row_highlight (values : List String) (res : String) :
    (strLower res = "sd" ∨ strLower res = "480" ∨ strLower res = "720" →
      ∀ c ∈ movieRow values res, c.2 = Fill.lowRes)
    ∧ (strLower res = "4k" ∨ strLower res = "uhd" →
      ∀ c ∈ movieRow values res, c.2 = Fill.fourK)
    ∧ (strLower res ≠ "sd" ∧ strLower res ≠ "480" ∧ strLower res ≠ "720"
        ∧ strLower res ≠ "4k" ∧ strLower res ≠ "uhd" →
      ∀ c ∈ movieRow values res, c.2 = Fill.none) := by
  refine ⟨?_, ?_, ?_⟩
  · intro h c hc
    obtain ⟨v, hv, rfl⟩ := List.mem_map.mp hc
    show row_fill res = Fill.lowRes
    show (if strLower res = "sd" ∨ strLower res = "480" ∨ strLower res = "720" then Fill.lowRes
      else if strLower res = "4k" ∨ strLower res = "uhd" then Fill.fourK else Fill.none)
        = Fill.lowRes
    rw [if_pos h]
  · intro h c hc
    obtain ⟨v, hv, rfl⟩ := List.mem_map.mp hc
    have hlow : ¬ (strLower res = "sd" ∨ strLower res = "480" ∨ strLower res = "720") := by
      rcases h with h | h <;> rw [h] <;> decide
    show row_fill res = Fill.fourK
    show (if strLower res = "sd" ∨ strLower res = "480" ∨ strLower res = "720" then Fill.lowRes
      else if strLower res = "4k" ∨ strLower res = "uhd" then Fill.fourK else Fill.none)
        = Fill.fourK
    rw [if_neg hlow, if_pos h]
  · intro h c hc
    obtain ⟨v, hv, rfl⟩ := List.mem_map.mp hc
    have hlow : ¬ (strLower res = "sd" ∨ strLower res = "480" ∨ strLower res = "720") := by
      rintro (h1 | h1 | h1) <;> simp_all
    have hhigh : ¬ (strLower res = "4k" ∨ strLower res = "uhd") := by
      rintro (h1 | h1) <;> simp_all
    show row_fill res = Fill.none
    show (if strLower res = "sd" ∨ strLower res = "480" ∨ strLower res = "720" then Fill.lowRes
      else if strLower res = "4k" ∨ strLower res = "uhd" then Fill.fourK else Fill.none)
        = Fill.none
    rw [if_neg hlow, if_neg hhigh]

/-- C9 witness: "SD" (mixed case) lowercases to "sd", and a cell of its row
carries the low-resolution fill. -/
theorem C9_flat_row_highlight_witness :
    (strLower "SD" = "sd" ∨ strLower "SD" = "480" ∨ strLower "SD" = "720")
    ∧ row_fill "SD" = Fill.lowRes :=
  ⟨Or.inl (by decide),
    (C9_flat_row_highlight ["t"] "SD").1 (Or.inl (by decide))
      ("t", row_fill "SD") (by simp [movieRow])⟩

theorem processStep_none (lookup : String → Option TVMazeInfo)
    (acc : List ShowData × Nat) (sh : PlexShow) (h : lookup sh.title = Option.none) :
    processStep lookup acc sh = acc := by
  simp [processStep, h]

theorem processStep_some (lookup : String → Option TVMazeInfo)
    (acc : List ShowData × Nat) (sh : PlexShow) (info : TVMazeInfo)
    (h : lookup sh.title = some info) :
    processStep lookup acc sh =
      (acc.1 ++ [⟨sh.title, sh.seasons, info⟩],
        if info.total_seasons > acc.2 then info.total_seasons else acc.2) := by
  simp [processStep, h]

theorem processFold_total_le (lookup : String → Option TVMazeInfo) :
    ∀ (shows : List PlexShow) (d : List ShowData) (m : Nat),
      (∀ sd ∈ d, sd.tvmaze_info.total_seasons ≤ m) →
      ∀ sd ∈ (List.foldl (processStep lookup) (d, m) shows).1,
        sd.tvmaze_info.total_seasons ≤ (List.foldl (processStep lookup) (d, m) shows).2 := by
  intro shows
  induction shows with
  | nil => intro d m hd; simpa using hd
  | cons sh rest ih =>
      intro d m hd
      rw [List.foldl_cons]
      cases hL : lookup sh.title with
      | none =>
          rw [processStep_none lookup (d, m) sh hL]
          exact ih d m hd
      | some info =>
          rw [processStep_some lookup (d, m) sh info hL]
          apply ih
          intro sd hsd
          rcases List.mem_append.mp hsd with hsd | hsd
          · exact le_trans (hd sd hsd) (by split_ifs <;> omega)
          · rw [List.mem_singleton] at hsd
            subst hsd
            show info.total_seasons ≤ if info.total_seasons > m then info.total_seasons else m
            split_ifs <;> omega

theorem processFold_attained (lookup : String → Option TVMazeInfo) :
    ∀ (shows : List PlexShow) (d : List ShowData) (m : Nat),
      ((d = [] ∧ m = 0) ∨ ∃ sd ∈ d, sd.tvmaze_info.total_seasons = m) →
      (((List.foldl (processStep lookup) (d, m) shows).1 = []
          ∧ (List.foldl (processStep lookup) (d, m) shows).2 = 0)
        ∨ ∃ sd ∈ (List.foldl (processStep lookup) (d, m) shows).1,
            sd.tvmaze_info.total_seasons = (List.foldl (processStep lookup) (d, m) shows).2) := by
  intro shows
  induction shows with
  | nil =>
      intro d m hd
      rcases hd with ⟨h1, h2⟩ | hex
      · exact Or.inl ⟨h1, h2⟩
      · exact Or.inr hex
  | cons sh rest ih =>
      intro d m hd
      rw [List.foldl_cons]
      cases hL : lookup sh.title with
      | none =>
          rw [processStep_none lookup (d, m) sh hL]
          exact ih d m hd
      | some info =>
          rw [processStep_some lookup (d, m) sh info hL]
          apply ih
          right
          by_cases hgt : info.total_seasons > m
          · refine ⟨⟨sh.title, sh.seasons, info⟩,
              List.mem_append.mpr (Or.inr (List.mem_singleton.mpr rfl)), ?_⟩
            simp [hgt]
          · rcases hd with ⟨hd1, hd2⟩ | ⟨sd, hsd, hval⟩
            · subst hd1; subst hd2
              refine ⟨⟨sh.title, sh.seasons, info⟩,
                List.mem_append.mpr (Or.inr (List.mem_singleton.mpr rfl)), ?_⟩
              simp only [if_neg hgt]
              omega
            · refine ⟨sd, List.mem_append.mpr (Or.inl hsd), ?_⟩
              simp [hgt, hval]

/-- C6: with at least one show in the report, the TV Shows sheet has exactly
`2 + max_seasons` columns, where `max_seasons` is the maximum `total_seasons`
over the shows that made it into `shows_data` (an upper bound that is
attained); every row gets a cell for each of the `max_seasons` season
columns, and the columns beyond a show's own season range are filled gray
rather than omitted. -/
theorem C6_grid_shape (lookup : String → Option TVMazeInfo) (shows : List PlexShow)
    (h : (processShows lookup shows).1 ≠ []) :
    (headers (processShows lookup shows).2).length = 2 + (processShows lookup shows).2
    ∧ (∀ sd ∈ (processShows lookup shows).1,
        sd.tvmaze_info.total_seasons ≤ (processShows lookup shows).2)
    ∧ (∃ sd ∈ (processShows lookup shows).1,
        sd.tvmaze_info.total_seasons = (processShows lookup shows).2)
    ∧ (∀ sd ∈ (processShows lookup shows).1,
        (seasonCells sd (processShows lookup shows).2).length = (processShows lookup shows).2)
    ∧ (∀ sd ∈ (processShows lookup shows).1, ∀ s,
        sd.tvmaze_info.total_seasons < s →
          season_cell_fill sd.tvmaze_info.total_seasons sd.seasons sd.tvmaze_info.seasons s
            = Fill.gray) := by
  refine ⟨?_, ?_, ?_, ?_, ?_⟩
  · simp [headers]
    omega
  · exact processFold_total_le lookup shows [] 0 (by simp)
  · rcases processFold_attained lookup shows [] 0 (Or.inl ⟨rfl, rfl⟩) with ⟨h1, _⟩ | hex
    · exact absurd h1 h
    · exact hex
  · intro sd _
    simp [seasonCells]
  · intro sd _ s hlt
    unfold season_cell_fill
    rw [if_neg (by omega)]

/-- A catalog resolving every title to a fixed two-season entry, used to
instantiate the grid-shape theorem. -/
def lookupTwoSeasons : String → Option TVMazeInfo := fun _ => some ⟨2, [(1, 3), (2, 4)]⟩

/-- C6 witness: one show processed against a two-season catalog entry gives a
non-empty report whose header row has `2 + max_seasons` columns. -/
theorem C6_grid_shape_witness :
    (processShows lookupTwoSeasons [⟨"A", [(1, 3)]⟩]).1 ≠ []
    ∧ (headers (processShows lookupTwoSeasons [⟨"A", [(1, 3)]⟩]).2).length
        = 2 + (processShows lookupTwoSeasons [⟨"A", [(1, 3)]⟩]).2 :=
  ⟨by decide, (C6_grid_shape lookupTwoSeasons [⟨"A", [(1, 3)]⟩] (by decide)).1⟩
